import Mathlib

/-!
Verification of the Estimation Engine and Vision Analysis Client of the
SolarRooftopAnalysisAI repository (src/app.py), shallowly embedded in Lean.

Python ints are modelled as ℤ, Python floats as exact rationals ℚ; for the
one claim about bit-for-bit floating-point equality a separate model of
IEEE-754 binary64 round-to-nearest-even rounding (valid on the normal range,
which contains every value the engine can produce) is used.
-/

namespace SolarRooftop

/-- Substring test on character lists: `containsSub needle hay` is true iff
`needle` occurs contiguously inside `hay`. Models the Python `in` operator
on strings. -/
def containsSub (needle : List Char) : List Char → Bool
  | [] => needle.isEmpty
  | c :: t => needle.isPrefixOf (c :: t) || containsSub needle t

/-- Python `needle in hay` for strings. -/
def strContainsSub (hay needle : String) : Bool :=
  containsSub needle.toList hay.toList

/-- Python `str.lower`, modelled with `Char.toLower`, which lowercases
exactly the ASCII uppercase range; every keyword matched below is ASCII. -/
def strLower (s : String) : String := String.mk (s.data.map Char.toLower)

/-- Source constant `PANEL_WATTAGE = 400` (app.py line 24). -/
def PANEL_WATTAGE : ℤ := 400

/-- Source constant `PANEL_AREA_SQ_FT = 18` (app.py line 25). -/
def PANEL_AREA_SQ_FT : ℚ := 18

/-- Source constant `PANEL_COST_PER_WATT = 70.00` (app.py line 26). -/
def PANEL_COST_PER_WATT : ℚ := 70.00

/-- Source constant `AVG_ELECTRICITY_RATE_PER_KWH = 6.50` (app.py line 27). -/
def AVG_ELECTRICITY_RATE_PER_KWH : ℚ := 6.50

/-- Source constant `SYSTEM_LIFESPAN_YEARS = 25` (app.py line 28; declared but
never used in any formula). -/
def SYSTEM_LIFESPAN_YEARS : ℤ := 25

/-- The qualitative analysis record produced by the vision client and consumed
by `perform_simplified_calculations`. Every field is optional: the Python
code reads fields with `dict.get` and a default, so a missing key is a legal
input. -/
structure QualitativeAnalysis where
  roof_shape : Option String
  main_obstacles : Option (List String)
  sunlight_exposure : Option String
  usable_area_qualitative : Option String
  overall_assessment : Option String
deriving DecidableEq, Repr

/-- The ROI field of the output record: either a number (Python float) or the
sentinel string `"N/A (No significant savings)"` (app.py line 127). -/
inductive RoiValue where
  | num (q : ℚ)
  | na
deriving DecidableEq, Repr

/-- The numeric estimate record returned by `perform_simplified_calculations`
(app.py lines 129-137). -/
structure NumericEstimate where
  estimated_usable_sq_ft : ℤ
  estimated_panel_count : ℤ
  estimated_system_wattage : ℤ
  estimated_yearly_kwh : ℚ
  estimated_system_cost : ℚ
  estimated_yearly_savings : ℚ
  estimated_roi_years : RoiValue
deriving DecidableEq, Repr

/-- Area lookup on the (already lowercased) qualitative area string
(app.py lines 85-92). -/
def areaOf (usable_area_qualitative : String) : ℤ :=
  if strContainsSub usable_area_qualitative "large" then 600
  else if strContainsSub usable_area_qualitative "medium" then 300
  else if strContainsSub usable_area_qualitative "small" then 100
  else 0

/-- Panel count from the resolved area (app.py lines 95-98):
`math.floor(estimated_usable_sq_ft / PANEL_AREA_SQ_FT)` when the area is
positive, else 0. Python `/` is exact here modulo float rounding, which
cannot move the floor for the four producible areas. -/
def panelsOf (estimated_usable_sq_ft : ℤ) : ℤ :=
  if estimated_usable_sq_ft > 0 then
    ⌊(estimated_usable_sq_ft : ℚ) / PANEL_AREA_SQ_FT⌋
  else 0

/-- Production factor lookup on the (already lowercased) sunlight string
(app.py lines 104-110). -/
def factorOf (sunlight_exposure : String) : ℚ :=
  if strContainsSub sunlight_exposure "excellent" then 1.2
  else if strContainsSub sunlight_exposure "moderate" then 0.8
  else if (strContainsSub sunlight_exposure "poor"
        || strContainsSub sunlight_exposure "significant shading") then 0.5
  else 1.0

/-- Yearly kWh formula (app.py line 115):
`(wattage * 1.4 * production_factor) / 1000 if wattage > 0 else 0`. -/
def yearlyKwhOf (estimated_system_wattage : ℤ) (production_factor : ℚ) : ℚ :=
  if estimated_system_wattage > 0 then
    ((estimated_system_wattage : ℚ) * 1.4 * production_factor) / 1000
  else 0

/-- System cost formula (app.py line 118):
`(wattage / 1000) * PANEL_COST_PER_WATT * 1000 if wattage > 0 else 0`. -/
def costOf (estimated_system_wattage : ℤ) : ℚ :=
  if estimated_system_wattage > 0 then
    ((estimated_system_wattage : ℚ) / 1000) * PANEL_COST_PER_WATT * 1000
  else 0

/-- Yearly savings (app.py line 121). -/
def savingsOf (estimated_yearly_kwh : ℚ) : ℚ :=
  estimated_yearly_kwh * AVG_ELECTRICITY_RATE_PER_KWH

/-- ROI (app.py lines 124-127): `cost / savings` when savings are positive,
else the sentinel. -/
def roiOf (estimated_system_cost estimated_yearly_savings : ℚ) : RoiValue :=
  if estimated_yearly_savings > 0 then
    RoiValue.num (estimated_system_cost / estimated_yearly_savings)
  else RoiValue.na

/-- The Estimation Engine `perform_simplified_calculations` (app.py
lines 80-137). Field reads use the source defaults
(`ai_analysis.get(key, 'N/A').lower()`). -/
def perform_simplified_calculations (ai_analysis : QualitativeAnalysis) :
    NumericEstimate :=
  let usable_area_qualitative :=
    strLower (ai_analysis.usable_area_qualitative.getD "N/A")
  let sunlight_exposure :=
    strLower (ai_analysis.sunlight_exposure.getD "N/A")
  let estimated_usable_sq_ft := areaOf usable_area_qualitative
  let estimated_panel_count := panelsOf estimated_usable_sq_ft
  let estimated_system_wattage := estimated_panel_count * PANEL_WATTAGE
  let production_factor := factorOf sunlight_exposure
  let estimated_yearly_kwh :=
    yearlyKwhOf estimated_system_wattage production_factor
  let estimated_system_cost := costOf estimated_system_wattage
  let estimated_yearly_savings := savingsOf estimated_yearly_kwh
  let estimated_roi_years :=
    roiOf estimated_system_cost estimated_yearly_savings
  { estimated_usable_sq_ft := estimated_usable_sq_ft
    estimated_panel_count := estimated_panel_count
    estimated_system_wattage := estimated_system_wattage
    estimated_yearly_kwh := estimated_yearly_kwh
    estimated_system_cost := estimated_system_cost
    estimated_yearly_savings := estimated_yearly_savings
    estimated_roi_years := estimated_roi_years }

/-- Outcome of the single external chat-completion call made by
`get_roof_analysis_from_ai` (app.py lines 40-71): either the response text,
or an exception description raised during the call. The network effect is
modelled by passing the outcome explicitly. -/
inductive CallOutcome where
  | ok (text : String)
  | failure (desc : String)
deriving DecidableEq, Repr

/-- Result of `get_roof_analysis_from_ai`: the parsed record, or one of the
two error dictionaries built in the `except` branches (app.py lines 73-77).
`errorParse` carries the `"error"` and `"raw_response"` entries of the dict
returned on `json.JSONDecodeError`; `errorOther` carries the `"error"` entry
of the dict returned on any other exception. -/
inductive AIResult where
  | parsed (a : QualitativeAnalysis)
  | errorParse (desc raw : String)
  | errorOther (desc : String)
deriving DecidableEq, Repr

/-- The Vision Analysis Client `get_roof_analysis_from_ai` (app.py
lines 38-77), with the external call's outcome and the JSON decoder
(`json.loads`, a library function) passed explicitly. On response text it
parses; a parse failure yields the error dict with message
`"JSON parsing error: " ++ e` and the raw text; any other failure during the
call yields the error dict with message
`"Error during AI analysis: " ++ e`. Exactly one call is made: the function
consumes one `CallOutcome` and never retries. -/
def get_roof_analysis_from_ai (outcome : CallOutcome)
    (jsonLoads : String → Except String QualitativeAnalysis) : AIResult :=
  match outcome with
  | CallOutcome.failure e => AIResult.errorOther ("Error during AI analysis: " ++ e)
  | CallOutcome.ok text =>
    match jsonLoads text with
    | Except.ok a => AIResult.parsed a
    | Except.error e =>
      AIResult.errorParse ("JSON parsing error: " ++ e) text

/-! IEEE-754 binary64 rounding model, used only for the bit-for-bit cost
equivalence claim. `fp64` rounds an exact rational to the nearest value with
a 53-bit significand, ties to even, with unbounded exponent; on the normal
range of binary64 (where all the engine's cost values lie) this agrees
exactly with double-precision rounding. -/

/-- Round to the nearest integer, ties to even. -/
def rne (q : ℚ) : ℤ :=
  let f := ⌊q⌋
  let r := q - f
  if r < 1/2 then f
  else if 1/2 < r then f + 1
  else if f % 2 = 0 then f else f + 1

/-- Greatest `e : ℤ` with `2^e ≤ q`, for `q > 0` (0 otherwise). -/
def qlog2floor (q : ℚ) : ℤ :=
  if q ≤ 0 then 0
  else
    let e : ℤ := (q.num.toNat.log2 : ℤ) - (q.den.log2 : ℤ)
    if (2 : ℚ) ^ e ≤ q then e else e - 1

/-- Round an exact rational to 53 significant bits, nearest, ties to even. -/
def fp64 (q : ℚ) : ℚ :=
  if q = 0 then 0
  else
    let s : ℚ := if q < 0 then -1 else 1
    let aq := |q|
    let e : ℤ := qlog2floor aq - 52
    s * (rne (aq * (2 : ℚ) ^ (-e)) : ℚ) * (2 : ℚ) ^ e

/-- Double-precision product. -/
def fpMul (a b : ℚ) : ℚ := fp64 (a * b)

/-- Double-precision quotient. -/
def fpDiv (a b : ℚ) : ℚ := fp64 (a / b)

/-- The implemented system-cost formula of app.py line 118, evaluated in
double precision operation by operation:
`(wattage / 1000) * 70.00 * 1000 if wattage > 0 else 0`. -/
def costFormulaFP (w : ℤ) : ℚ :=
  if w > 0 then fpMul (fpMul (fpDiv (fp64 (w : ℚ)) 1000) PANEL_COST_PER_WATT) 1000
  else 0

/-- The simplified cost formula `wattage * 70.00` in double precision. -/
def costSimpleFP (w : ℤ) : ℚ :=
  fpMul (fp64 (w : ℚ)) PANEL_COST_PER_WATT

/-! Spec-side definitions, written from the specification's words, to be
compared with the code-side definitions above. -/

/-- Area resolution as the spec states it: "600 if the lowercased string
contains 'large', else 300 if it contains 'medium', else 100 if it contains
'small', else 0 (including a missing field or empty string)", first match
wins in that order. -/
def specAreaResolve (field : Option String) : ℤ :=
  match field with
  | none => 0
  | some s =>
    let t := strLower s
    if strContainsSub t "large" then 600
    else if strContainsSub t "medium" then 300
    else if strContainsSub t "small" then 100
    else 0

/-- Production-factor resolution as the spec states it: "1.2 if the
lowercased string contains 'excellent', else 0.8 if it contains 'moderate',
else 0.5 if it contains 'poor' or 'significant shading', else 1.0 (including
'good', unrecognized, or missing)", first match wins in that order. -/
def specFactorResolve (field : Option String) : ℚ :=
  match field with
  | none => 1.0
  | some s =>
    let t := strLower s
    if strContainsSub t "excellent" then 1.2
    else if strContainsSub t "moderate" then 0.8
    else if (strContainsSub t "poor" || strContainsSub t "significant shading") then 0.5
    else 1.0

/-- Well-formedness of a `NumericEstimate`, from the spec's data model
(section 3): the area is one of {0, 100, 300, 600}, counts and quantities
are non-negative, and the ROI field is either a number or the sentinel. -/
def NumericEstimateWF (r : NumericEstimate) : Prop :=
  (r.estimated_usable_sq_ft = 0 ∨ r.estimated_usable_sq_ft = 100 ∨
   r.estimated_usable_sq_ft = 300 ∨ r.estimated_usable_sq_ft = 600) ∧
  0 ≤ r.estimated_panel_count ∧
  0 ≤ r.estimated_system_wattage ∧
  0 ≤ r.estimated_yearly_kwh ∧
  0 ≤ r.estimated_system_cost ∧
  0 ≤ r.estimated_yearly_savings ∧
  (r.estimated_roi_years = RoiValue.na ∨
   ∃ q : ℚ, 0 ≤ q ∧ r.estimated_roi_years = RoiValue.num q)

/-! Helper lemmas shared by the claim theorems. -/

lemma perform_area (a : QualitativeAnalysis) :
    (perform_simplified_calculations a).estimated_usable_sq_ft =
      areaOf (strLower (a.usable_area_qualitative.getD "N/A")) := rfl

lemma perform_panels (a : QualitativeAnalysis) :
    (perform_simplified_calculations a).estimated_panel_count =
      panelsOf ((perform_simplified_calculations a).estimated_usable_sq_ft) := rfl

lemma perform_wattage (a : QualitativeAnalysis) :
    (perform_simplified_calculations a).estimated_system_wattage =
      (perform_simplified_calculations a).estimated_panel_count * PANEL_WATTAGE := rfl

lemma perform_kwh (a : QualitativeAnalysis) :
    (perform_simplified_calculations a).estimated_yearly_kwh =
      yearlyKwhOf (perform_simplified_calculations a).estimated_system_wattage
        (factorOf (strLower (a.sunlight_exposure.getD "N/A"))) := rfl

lemma perform_cost (a : QualitativeAnalysis) :
    (perform_simplified_calculations a).estimated_system_cost =
      costOf (perform_simplified_calculations a).estimated_system_wattage := rfl

lemma perform_savings (a : QualitativeAnalysis) :
    (perform_simplified_calculations a).estimated_yearly_savings =
      savingsOf (perform_simplified_calculations a).estimated_yearly_kwh := rfl

lemma perform_roi (a : QualitativeAnalysis) :
    (perform_simplified_calculations a).estimated_roi_years =
      roiOf (perform_simplified_calculations a).estimated_system_cost
        (perform_simplified_calculations a).estimated_yearly_savings := rfl

lemma areaOf_cases (s : String) :
    areaOf s = 0 ∨ areaOf s = 100 ∨ areaOf s = 300 ∨ areaOf s = 600 := by
  unfold areaOf
  split_ifs <;> simp

lemma factorOf_cases (s : String) :
    factorOf s = 1.2 ∨ factorOf s = 0.8 ∨ factorOf s = 0.5 ∨ factorOf s = 1.0 := by
  unfold factorOf
  split_ifs <;> simp

lemma factorOf_pos (s : String) : 0 < factorOf s := by
  rcases factorOf_cases s with h | h | h | h <;> rw [h] <;> norm_num

lemma panelsOf_nonneg (sq : ℤ) : 0 ≤ panelsOf sq := by
  unfold panelsOf
  split
  · exact Int.floor_nonneg.mpr (div_nonneg (by exact_mod_cast (by linarith : (0:ℤ) ≤ sq))
      (by norm_num [PANEL_AREA_SQ_FT]))
  · exact le_refl 0

lemma panelsOf_zero : panelsOf 0 = 0 := by norm_num [panelsOf]

lemma panelsOf_100 : panelsOf 100 = 5 := by norm_num [panelsOf, PANEL_AREA_SQ_FT]

lemma panelsOf_300 : panelsOf 300 = 16 := by norm_num [panelsOf, PANEL_AREA_SQ_FT]

lemma panelsOf_600 : panelsOf 600 = 33 := by norm_num [panelsOf, PANEL_AREA_SQ_FT]

lemma wattage_cases (a : QualitativeAnalysis) :
    (perform_simplified_calculations a).estimated_system_wattage = 0 ∨
    (perform_simplified_calculations a).estimated_system_wattage = 2000 ∨
    (perform_simplified_calculations a).estimated_system_wattage = 6400 ∨
    (perform_simplified_calculations a).estimated_system_wattage = 13200 := by
  rw [perform_wattage, perform_panels, perform_area]
  rcases areaOf_cases (strLower (a.usable_area_qualitative.getD "N/A")) with h | h | h | h <;>
    rw [h] <;>
    norm_num [panelsOf_zero, panelsOf_100, panelsOf_300, panelsOf_600, PANEL_WATTAGE]

lemma yearlyKwhOf_nonneg (w : ℤ) (f : ℚ) (hf : 0 ≤ f) : 0 ≤ yearlyKwhOf w f := by
  unfold yearlyKwhOf
  split
  · have hw : (0:ℚ) ≤ (w:ℚ) := by exact_mod_cast (by linarith : (0:ℤ) ≤ w)
    exact div_nonneg (mul_nonneg (mul_nonneg hw (by norm_num)) hf) (by norm_num)
  · exact le_refl 0

lemma costOf_nonneg (w : ℤ) : 0 ≤ costOf w := by
  unfold costOf
  split
  · have hw : (0:ℚ) ≤ (w:ℚ) := by exact_mod_cast (by linarith : (0:ℤ) ≤ w)
    exact mul_nonneg (mul_nonneg (div_nonneg hw (by norm_num))
      (by norm_num [PANEL_COST_PER_WATT])) (by norm_num)
  · exact le_refl 0

lemma savingsOf_nonneg (k : ℚ) (hk : 0 ≤ k) : 0 ≤ savingsOf k :=
  mul_nonneg hk (by norm_num [AVG_ELECTRICITY_RATE_PER_KWH])

lemma roiOf_shape (c s : ℚ) (hc : 0 ≤ c) :
    roiOf c s = RoiValue.na ∨ ∃ q : ℚ, 0 ≤ q ∧ roiOf c s = RoiValue.num q := by
  unfold roiOf
  split
  · exact Or.inr ⟨c / s, div_nonneg hc (by linarith), rfl⟩
  · exact Or.inl rfl

/-! Claim theorems. -/

/-- C1: the Estimation Engine is deterministic and total: for every input
analysis record, including records with missing or unrecognized fields, it
produces a well-formed `NumericEstimate` record (and equal inputs produce
equal outputs); there is no failing input. -/
theorem C1_engine_total_deterministic :
    (∀ a : QualitativeAnalysis,
      NumericEstimateWF (perform_simplified_calculations a)) ∧
    (∀ a b : QualitativeAnalysis, a = b →
      perform_simplified_calculations a = perform_simplified_calculations b) := by
  constructor
  · intro a
    have hf : 0 ≤ factorOf (strLower (a.sunlight_exposure.getD "N/A")) :=
      (factorOf_pos _).le
    have hkwh : 0 ≤ (perform_simplified_calculations a).estimated_yearly_kwh := by
      rw [perform_kwh]; exact yearlyKwhOf_nonneg _ _ hf
    have hcost : 0 ≤ (perform_simplified_calculations a).estimated_system_cost := by
      rw [perform_cost]; exact costOf_nonneg _
    refine ⟨?_, ?_, ?_, hkwh, hcost, ?_, ?_⟩
    · rw [perform_area]; exact areaOf_cases _
    · rw [perform_panels]; exact panelsOf_nonneg _
    · rw [perform_wattage]
      exact mul_nonneg (panelsOf_nonneg _ |>.trans_eq (perform_panels a).symm |>.trans_eq
        (perform_panels a)) (by norm_num [PANEL_WATTAGE])
    · rw [perform_savings]; exact savingsOf_nonneg _ hkwh
    · rw [perform_roi]; exact roiOf_shape _ _ hcost
  · intro a b h
    rw [h]

/-- C1 witness: the theorem applied at a concrete record with every field
missing, discharging the determinism hypothesis by reflexivity. -/
theorem C1_engine_total_deterministic_witness :
    NumericEstimateWF (perform_simplified_calculations
      ⟨none, none, none, none, none⟩) ∧
    perform_simplified_calculations ⟨none, none, none, none, none⟩ =
      perform_simplified_calculations ⟨none, none, none, none, none⟩ :=
  ⟨C1_engine_total_deterministic.1 _,
   C1_engine_total_deterministic.2 _ _ rfl⟩

/-- C2: for every input record, the resolved usable area computed by the
engine equals the spec's resolution rule: 600 if the lowercased area string
contains "large", else 300 if "medium", else 100 if "small", else 0
(including a missing field), with exactly that precedence order. -/
theorem C2_area_lookup (a : QualitativeAnalysis) :
    (perform_simplified_calculations a).estimated_usable_sq_ft =
      specAreaResolve a.usable_area_qualitative := by
  rw [perform_area]
  cases a.usable_area_qualitative with
  | none => rfl
  | some s => rfl

/-- C3: for every input record, the production factor used by the engine
equals the spec's resolution rule: 1.2 if the lowercased sunlight string
contains "excellent", else 0.8 if "moderate", else 0.5 if "poor" or
"significant shading", else 1.0 (including "good", unrecognized or missing),
with exactly that precedence order. -/
theorem C3_production_factor_lookup (a : QualitativeAnalysis) :
    factorOf (strLower (a.sunlight_exposure.getD "N/A")) =
      specFactorResolve a.sunlight_exposure := by
  cases a.sunlight_exposure with
  | none => rfl
  | some s => rfl

/-- C4: for every input record, the panel count equals
`floor(area / 18)`, and it is 0 when the area is 0. -/
theorem C4_panel_count (a : QualitativeAnalysis) :
    (perform_simplified_calculations a).estimated_panel_count =
      ⌊((perform_simplified_calculations a).estimated_usable_sq_ft : ℚ) /
        PANEL_AREA_SQ_FT⌋ ∧
    ((perform_simplified_calculations a).estimated_usable_sq_ft = 0 →
      (perform_simplified_calculations a).estimated_panel_count = 0) := by
  rw [perform_panels, perform_area]
  rcases areaOf_cases (strLower (a.usable_area_qualitative.getD "N/A")) with h | h | h | h <;>
    rw [h] <;>
    refine ⟨?_, ?_⟩ <;>
    norm_num [panelsOf_zero, panelsOf_100, panelsOf_300, panelsOf_600, PANEL_AREA_SQ_FT]

/-- C4 witness: the theorem applied at a concrete record whose area resolves
to 0, discharging the implication's hypothesis. -/
theorem C4_panel_count_witness :
    (perform_simplified_calculations ⟨none, none, none, none, none⟩).estimated_panel_count = 0 :=
  (C4_panel_count ⟨none, none, none, none, none⟩).2 (by decide)

/-- C5: for every input record, the system wattage equals the panel count
times 400, exactly, in integer arithmetic. -/
theorem C5_system_wattage (a : QualitativeAnalysis) :
    (perform_simplified_calculations a).estimated_system_wattage =
      (perform_simplified_calculations a).estimated_panel_count * 400 := rfl


/-! Evaluation of the binary64 model at the values the engine produces. -/

lemma qlog2floor_eq (q : ℚ) (e : ℤ) (h1 : (2:ℚ) ^ e ≤ q) (h2 : q < (2:ℚ) ^ (e + 1)) :
    qlog2floor q = e := by
  have h2pos : (0:ℚ) < 2 := by norm_num
  have h2ne : (2:ℚ) ≠ 0 := by norm_num
  have h12 : (1:ℚ) < 2 := by norm_num
  have hq : 0 < q := lt_of_lt_of_le (zpow_pos h2pos e) h1
  have hnum : 0 < q.num := Rat.num_pos.mpr hq
  have hden : q.den ≠ 0 := q.den_nz
  have ha : q.num.toNat ≠ 0 := by omega
  have hcast : ((q.num.toNat : ℤ) : ℚ) = (q.num : ℚ) := by
    rw [Int.toNat_of_nonneg hnum.le]
  have hpow1 : ∀ k : ℕ, (2:ℚ) ^ ((k:ℤ) + 1) = ((2 ^ (k+1) : ℕ) : ℚ) := by
    intro k
    have hk : ((k:ℤ) + 1) = ((k+1 : ℕ) : ℤ) := by push_cast; ring
    rw [hk, zpow_natCast]; push_cast; ring
  set la := q.num.toNat.log2 with hla
  set ld := q.den.log2 with hld
  have hA1 : (2:ℚ) ^ (la : ℤ) ≤ (q.num : ℚ) := by
    have h' : ((2 ^ la : ℕ) : ℚ) ≤ ((q.num.toNat : ℕ) : ℚ) := by
      exact_mod_cast Nat.log2_self_le ha
    calc (2:ℚ) ^ (la : ℤ) = ((2 ^ la : ℕ) : ℚ) := by push_cast [zpow_natCast]; ring
      _ ≤ ((q.num.toNat : ℕ) : ℚ) := h'
      _ = (q.num : ℚ) := by exact_mod_cast hcast
  have hA2 : (q.num : ℚ) < (2:ℚ) ^ ((la : ℤ) + 1) := by
    have h' : ((q.num.toNat : ℕ) : ℚ) < ((2 ^ (la + 1) : ℕ) : ℚ) := by
      exact_mod_cast Nat.lt_log2_self (n := q.num.toNat)
    calc (q.num : ℚ) = ((q.num.toNat : ℕ) : ℚ) := by exact_mod_cast hcast.symm
      _ < ((2 ^ (la + 1) : ℕ) : ℚ) := h'
      _ = (2:ℚ) ^ ((la : ℤ) + 1) := (hpow1 la).symm
  have hD1 : (2:ℚ) ^ (ld : ℤ) ≤ (q.den : ℚ) := by
    have h' : ((2 ^ ld : ℕ) : ℚ) ≤ ((q.den : ℕ) : ℚ) := by
      exact_mod_cast Nat.log2_self_le hden
    calc (2:ℚ) ^ (ld : ℤ) = ((2 ^ ld : ℕ) : ℚ) := by push_cast [zpow_natCast]; ring
      _ ≤ ((q.den : ℕ) : ℚ) := h'
  have hD2 : (q.den : ℚ) < (2:ℚ) ^ ((ld : ℤ) + 1) := by
    have h' : ((q.den : ℕ) : ℚ) < ((2 ^ (ld + 1) : ℕ) : ℚ) := by
      exact_mod_cast Nat.lt_log2_self (n := q.den)
    calc ((q.den : ℕ) : ℚ) < ((2 ^ (ld + 1) : ℕ) : ℚ) := h'
      _ = (2:ℚ) ^ ((ld : ℤ) + 1) := (hpow1 ld).symm
  have hdpos : (0:ℚ) < (q.den : ℚ) := by exact_mod_cast q.pos
  have hqeq : q = (q.num : ℚ) / (q.den : ℚ) := (Rat.num_div_den q).symm
  have hup : q < (2:ℚ) ^ ((la : ℤ) - ld + 1) := by
    rw [hqeq, div_lt_iff₀ hdpos]
    calc (q.num : ℚ) < (2:ℚ) ^ ((la : ℤ) + 1) := hA2
      _ = (2:ℚ) ^ ((la : ℤ) - ld + 1) * (2:ℚ) ^ (ld : ℤ) := by
          rw [← zpow_add₀ h2ne]; ring_nf
      _ ≤ (2:ℚ) ^ ((la : ℤ) - ld + 1) * (q.den : ℚ) := by
          exact mul_le_mul_of_nonneg_left hD1 (zpow_pos h2pos _).le
  have hlow : (2:ℚ) ^ ((la : ℤ) - ld - 1) < q := by
    rw [hqeq, lt_div_iff₀ hdpos]
    calc (2:ℚ) ^ ((la : ℤ) - ld - 1) * (q.den : ℚ)
        < (2:ℚ) ^ ((la : ℤ) - ld - 1) * (2:ℚ) ^ ((ld : ℤ) + 1) := by
          exact mul_lt_mul_of_pos_left hD2 (zpow_pos h2pos _)
      _ = (2:ℚ) ^ (la : ℤ) := by rw [← zpow_add₀ h2ne]; ring_nf
      _ ≤ (q.num : ℚ) := hA1
  have he_le : e ≤ (la : ℤ) - ld := by
    have : (2:ℚ) ^ e < (2:ℚ) ^ ((la : ℤ) - ld + 1) := lt_of_le_of_lt h1 hup
    have := (zpow_lt_zpow_iff_right₀ h12).mp this
    omega
  have he_ge : (la : ℤ) - ld - 1 ≤ e := by
    have : (2:ℚ) ^ ((la : ℤ) - ld - 1) < (2:ℚ) ^ (e + 1) := lt_trans hlow h2
    have := (zpow_lt_zpow_iff_right₀ h12).mp this
    omega
  simp only [qlog2floor, ← hla, ← hld]
  rw [if_neg (not_le.mpr hq)]
  rcases (by omega : e = (la : ℤ) - ld ∨ e = (la : ℤ) - ld - 1) with he | he
  · rw [if_pos (he ▸ h1)]
    omega
  · rw [if_neg]
    · omega
    · intro hcon
      have : ((la : ℤ) - ld) < e + 1 :=
        (zpow_lt_zpow_iff_right₀ h12).mp (lt_of_le_of_lt hcon h2)
      omega


lemma fp64_eq (q m : ℚ) (e : ℤ) (hq : 0 < q)
    (hlo : (2:ℚ) ^ (e + 52) ≤ q) (hhi : q < (2:ℚ) ^ (e + 52 + 1))
    (hm : ((rne (q * (2:ℚ) ^ (-e)) : ℤ) : ℚ) * (2:ℚ) ^ e = m) :
    fp64 q = m := by
  simp only [fp64]
  rw [if_neg (ne_of_gt hq), if_neg (not_lt.mpr hq.le), abs_of_pos hq,
    qlog2floor_eq q (e + 52) hlo hhi]
  have h52 : e + 52 - 52 = e := by ring
  rw [h52, one_mul, hm]

lemma fp64_two : fp64 (2:ℚ) = 2 := by
  apply fp64_eq _ _ (-51) (by norm_num) (by norm_num) (by norm_num)
  have harg : (2:ℚ) * (2:ℚ) ^ (-(-51 : ℤ)) = 4503599627370496 := by norm_num
  rw [harg]
  have hr : rne (4503599627370496 : ℚ) = 4503599627370496 := by
    simp only [rne]
    norm_num
  rw [hr]
  norm_num

lemma fp64_140 : fp64 (140:ℚ) = 140 := by
  apply fp64_eq _ _ (-45) (by norm_num) (by norm_num) (by norm_num)
  have harg : (140:ℚ) * (2:ℚ) ^ (-(-45 : ℤ)) = 4925812092436480 := by norm_num
  rw [harg]
  have hr : rne (4925812092436480 : ℚ) = 4925812092436480 := by
    simp only [rne]
    norm_num
  rw [hr]
  norm_num

lemma fp64_2000 : fp64 (2000:ℚ) = 2000 := by
  apply fp64_eq _ _ (-42) (by norm_num) (by norm_num) (by norm_num)
  have harg : (2000:ℚ) * (2:ℚ) ^ (-(-42 : ℤ)) = 8796093022208000 := by norm_num
  rw [harg]
  have hr : rne (8796093022208000 : ℚ) = 8796093022208000 := by
    simp only [rne]
    norm_num
  rw [hr]
  norm_num

lemma fp64_140000 : fp64 (140000:ℚ) = 140000 := by
  apply fp64_eq _ _ (-35) (by norm_num) (by norm_num) (by norm_num)
  have harg : (140000:ℚ) * (2:ℚ) ^ (-(-35 : ℤ)) = 4810363371520000 := by norm_num
  rw [harg]
  have hr : rne (4810363371520000 : ℚ) = 4810363371520000 := by
    simp only [rne]
    norm_num
  rw [hr]
  norm_num

lemma fp64_6400 : fp64 (6400:ℚ) = 6400 := by
  apply fp64_eq _ _ (-40) (by norm_num) (by norm_num) (by norm_num)
  have harg : (6400:ℚ) * (2:ℚ) ^ (-(-40 : ℤ)) = 7036874417766400 := by norm_num
  rw [harg]
  have hr : rne (7036874417766400 : ℚ) = 7036874417766400 := by
    simp only [rne]
    norm_num
  rw [hr]
  norm_num

lemma fp64_13200 : fp64 (13200:ℚ) = 13200 := by
  apply fp64_eq _ _ (-39) (by norm_num) (by norm_num) (by norm_num)
  have harg : (13200:ℚ) * (2:ℚ) ^ (-(-39 : ℤ)) = 7256776743321600 := by norm_num
  rw [harg]
  have hr : rne (7256776743321600 : ℚ) = 7256776743321600 := by
    simp only [rne]
    norm_num
  rw [hr]
  norm_num

lemma fp64_448000 : fp64 (448000:ℚ) = 448000 := by
  apply fp64_eq _ _ (-34) (by norm_num) (by norm_num) (by norm_num)
  have harg : (448000:ℚ) * (2:ℚ) ^ (-(-34 : ℤ)) = 7696581394432000 := by norm_num
  rw [harg]
  have hr : rne (7696581394432000 : ℚ) = 7696581394432000 := by
    simp only [rne]
    norm_num
  rw [hr]
  norm_num

lemma fp64_924000 : fp64 (924000:ℚ) = 924000 := by
  apply fp64_eq _ _ (-33) (by norm_num) (by norm_num) (by norm_num)
  have harg : (924000:ℚ) * (2:ℚ) ^ (-(-33 : ℤ)) = 7937099563008000 := by norm_num
  rw [harg]
  have hr : rne (7937099563008000 : ℚ) = 7937099563008000 := by
    simp only [rne]
    norm_num
  rw [hr]
  norm_num

lemma fp64_32_over_5 : fp64 ((32:ℚ)/5) = 3602879701896397/562949953421312 := by
  apply fp64_eq _ _ (-50) (by norm_num) (by norm_num) (by norm_num)
  have harg : ((32:ℚ)/5) * (2:ℚ) ^ (-(-50 : ℤ)) = 36028797018963968/5 := by norm_num
  rw [harg]
  have hr : rne (36028797018963968/5 : ℚ) = 7205759403792794 := by
    simp only [rne]
    norm_num
  rw [hr]
  norm_num

lemma fp64_66_over_5 : fp64 ((66:ℚ)/5) = 3715469692580659/281474976710656 := by
  apply fp64_eq _ _ (-49) (by norm_num) (by norm_num) (by norm_num)
  have harg : ((66:ℚ)/5) * (2:ℚ) ^ (-(-49 : ℤ)) = 37154696925806592/5 := by norm_num
  rw [harg]
  have hr : rne (37154696925806592/5 : ℚ) = 7430939385161318 := by
    simp only [rne]
    norm_num
  rw [hr]
  norm_num

lemma fp64_mid6400 : fp64 ((126100789566373895:ℚ)/281474976710656) = 448 := by
  apply fp64_eq _ _ (-44) (by norm_num) (by norm_num) (by norm_num)
  have harg : ((126100789566373895:ℚ)/281474976710656) * (2:ℚ) ^ (-(-44 : ℤ)) = 126100789566373895/16 := by norm_num
  rw [harg]
  have hr : rne (126100789566373895/16 : ℚ) = 7881299347898368 := by
    simp only [rne]
    norm_num
  rw [hr]
  norm_num

lemma fp64_mid13200 : fp64 ((130041439240323065:ℚ)/140737488355328) = 924 := by
  apply fp64_eq _ _ (-43) (by norm_num) (by norm_num) (by norm_num)
  have harg : ((130041439240323065:ℚ)/140737488355328) * (2:ℚ) ^ (-(-43 : ℤ)) = 130041439240323065/16 := by norm_num
  rw [harg]
  have hr : rne (130041439240323065/16 : ℚ) = 8127589952520192 := by
    simp only [rne]
    norm_num
  rw [hr]
  norm_num


lemma wattage_nonneg (a : QualitativeAnalysis) :
    0 ≤ (perform_simplified_calculations a).estimated_system_wattage := by
  rcases wattage_cases a with h | h | h | h <;> rw [h] <;> norm_num

lemma costOf_eq (w : ℤ) (hw : 0 ≤ w) : costOf w = (w : ℚ) * PANEL_COST_PER_WATT := by
  unfold costOf
  split
  · field_simp
  · rename_i h
    have hw0 : w = 0 := by omega
    rw [hw0]
    norm_num

lemma costFormulaFP_zero : costFormulaFP 0 = 0 := by norm_num [costFormulaFP]

lemma fp64_zero : fp64 0 = 0 := by simp [fp64]

lemma costSimpleFP_zero : costSimpleFP 0 = 0 := by
  rw [costSimpleFP, fpMul, show (((0:ℤ)):ℚ) = 0 by norm_num, fp64_zero,
    show (0:ℚ) * PANEL_COST_PER_WATT = 0 by norm_num, fp64_zero]

lemma costFormulaFP_2000 : costFormulaFP 2000 = 140000 := by
  rw [costFormulaFP, if_pos (by norm_num : (2000:ℤ) > 0)]
  simp only [fpMul, fpDiv]
  rw [show (((2000:ℤ)):ℚ) = 2000 by norm_num, fp64_2000,
    show (2000:ℚ) / 1000 = 2 by norm_num, fp64_two,
    show (2:ℚ) * PANEL_COST_PER_WATT = 140 by norm_num [PANEL_COST_PER_WATT],
    fp64_140, show (140:ℚ) * 1000 = 140000 by norm_num, fp64_140000]

lemma costSimpleFP_2000 : costSimpleFP 2000 = 140000 := by
  rw [costSimpleFP, fpMul, show (((2000:ℤ)):ℚ) = 2000 by norm_num, fp64_2000,
    show (2000:ℚ) * PANEL_COST_PER_WATT = 140000 by norm_num [PANEL_COST_PER_WATT],
    fp64_140000]

lemma costFormulaFP_6400 : costFormulaFP 6400 = 448000 := by
  rw [costFormulaFP, if_pos (by norm_num : (6400:ℤ) > 0)]
  simp only [fpMul, fpDiv]
  rw [show (((6400:ℤ)):ℚ) = 6400 by norm_num, fp64_6400,
    show (6400:ℚ) / 1000 = (32:ℚ)/5 by norm_num, fp64_32_over_5,
    show (3602879701896397:ℚ)/562949953421312 * PANEL_COST_PER_WATT =
      (126100789566373895:ℚ)/281474976710656 by norm_num [PANEL_COST_PER_WATT],
    fp64_mid6400, show (448:ℚ) * 1000 = 448000 by norm_num, fp64_448000]

lemma costSimpleFP_6400 : costSimpleFP 6400 = 448000 := by
  rw [costSimpleFP, fpMul, show (((6400:ℤ)):ℚ) = 6400 by norm_num, fp64_6400,
    show (6400:ℚ) * PANEL_COST_PER_WATT = 448000 by norm_num [PANEL_COST_PER_WATT],
    fp64_448000]

lemma costFormulaFP_13200 : costFormulaFP 13200 = 924000 := by
  rw [costFormulaFP, if_pos (by norm_num : (13200:ℤ) > 0)]
  simp only [fpMul, fpDiv]
  rw [show (((13200:ℤ)):ℚ) = 13200 by norm_num, fp64_13200,
    show (13200:ℚ) / 1000 = (66:ℚ)/5 by norm_num, fp64_66_over_5,
    show (3715469692580659:ℚ)/281474976710656 * PANEL_COST_PER_WATT =
      (130041439240323065:ℚ)/140737488355328 by norm_num [PANEL_COST_PER_WATT],
    fp64_mid13200, show (924:ℚ) * 1000 = 924000 by norm_num, fp64_924000]

lemma costSimpleFP_13200 : costSimpleFP 13200 = 924000 := by
  rw [costSimpleFP, fpMul, show (((13200:ℤ)):ℚ) = 13200 by norm_num, fp64_13200,
    show (13200:ℚ) * PANEL_COST_PER_WATT = 924000 by norm_num [PANEL_COST_PER_WATT],
    fp64_924000]

/-- C6: for every wattage value the engine can produce, the implemented
cost formula `(wattage / 1000) * 70.00 * 1000` (with 0 at wattage 0),
evaluated operation by operation in IEEE-754 binary64 arithmetic, is
bit-for-bit equal to the simplified formula `wattage * 70.00`; moreover the
engine computes a cost exactly equal to `wattage * 70.00`. -/
theorem C6_cost_formula_equivalence (a : QualitativeAnalysis) :
    costFormulaFP (perform_simplified_calculations a).estimated_system_wattage =
      costSimpleFP (perform_simplified_calculations a).estimated_system_wattage ∧
    (perform_simplified_calculations a).estimated_system_cost =
      ((perform_simplified_calculations a).estimated_system_wattage : ℚ) *
        PANEL_COST_PER_WATT := by
  constructor
  · rcases wattage_cases a with h | h | h | h <;> rw [h]
    · rw [costFormulaFP_zero, costSimpleFP_zero]
    · rw [costFormulaFP_2000, costSimpleFP_2000]
    · rw [costFormulaFP_6400, costSimpleFP_6400]
    · rw [costFormulaFP_13200, costSimpleFP_13200]
  · rw [perform_cost]
    exact costOf_eq _ (wattage_nonneg a)

lemma yearlyKwhOf_eq_zero_iff (w : ℤ) (f : ℚ) (hw : 0 ≤ w) (hf : 0 < f) :
    yearlyKwhOf w f = 0 ↔ w = 0 := by
  unfold yearlyKwhOf
  split
  · rename_i h
    have hcast : (0:ℚ) < (w:ℚ) := by exact_mod_cast h
    have hpos : 0 < ((w:ℚ) * 1.4 * f) / 1000 := by positivity
    constructor
    · intro h0
      exact absurd h0 (ne_of_gt hpos)
    · intro h0
      omega
  · rename_i h
    have hw0 : w = 0 := by omega
    simp [hw0]

lemma yearlyKwhOf_mono (w w' : ℤ) (f f' : ℚ) (hw : 0 ≤ w) (hww : w ≤ w')
    (hf : 0 ≤ f) (hff : f ≤ f') : yearlyKwhOf w f ≤ yearlyKwhOf w' f' := by
  have hf' : 0 ≤ f' := le_trans hf hff
  unfold yearlyKwhOf
  split
  · rename_i h1
    rw [if_pos (by omega : w' > 0)]
    have hwq : (0:ℚ) ≤ (w:ℚ) := by exact_mod_cast hw
    have hwq' : (0:ℚ) ≤ (w':ℚ) := by exact_mod_cast (by omega : (0:ℤ) ≤ w')
    have hwwq : (w:ℚ) ≤ (w':ℚ) := by exact_mod_cast hww
    gcongr
  · split
    · rename_i h1 h2
      have hwq' : (0:ℚ) ≤ (w':ℚ) := by exact_mod_cast (by omega : (0:ℤ) ≤ w')
      positivity
    · exact le_refl 0

lemma area_large_excellent :
    (perform_simplified_calculations
      ⟨none, none, some "excellent", some "large", none⟩).estimated_usable_sq_ft = 600 := by
  rw [perform_area]
  decide

lemma wattage_large_excellent :
    (perform_simplified_calculations
      ⟨none, none, some "excellent", some "large", none⟩).estimated_system_wattage = 13200 := by
  rw [perform_wattage, perform_panels, perform_area,
    show areaOf (strLower ((Option.getD (some "large") "N/A"))) = 600 from by decide,
    panelsOf_600]
  norm_num [PANEL_WATTAGE]

lemma wattage_large_excellent_pos :
    0 < (perform_simplified_calculations
      ⟨none, none, some "excellent", some "large", none⟩).estimated_system_wattage := by
  rw [wattage_large_excellent]
  norm_num

lemma kwh_large_excellent :
    (perform_simplified_calculations
      ⟨none, none, some "excellent", some "large", none⟩).estimated_yearly_kwh = 2772/125 := by
  rw [perform_kwh, wattage_large_excellent,
    show factorOf (strLower ((Option.getD (some "excellent") "N/A"))) = 1.2 from rfl]
  unfold yearlyKwhOf
  rw [if_pos (by norm_num : (13200:ℤ) > 0)]
  norm_num

lemma savings_large_excellent :
    (perform_simplified_calculations
      ⟨none, none, some "excellent", some "large", none⟩).estimated_yearly_savings =
      18018/125 := by
  rw [perform_savings, kwh_large_excellent]
  norm_num [savingsOf, AVG_ELECTRICITY_RATE_PER_KWH]

lemma savings_large_excellent_ne :
    (perform_simplified_calculations
      ⟨none, none, some "excellent", some "large", none⟩).estimated_yearly_savings ≠ 0 := by
  rw [savings_large_excellent]
  norm_num

lemma cost_large_excellent_pos :
    0 < (perform_simplified_calculations
      ⟨none, none, some "excellent", some "large", none⟩).estimated_system_cost := by
  rw [perform_cost, wattage_large_excellent]
  norm_num [costOf, PANEL_COST_PER_WATT]

/-- C7: for every input, the yearly kWh is 0 exactly when the system wattage
is 0; when the wattage is positive, it equals
`wattage * 1.4 * productionFactor / 1000`; and the yearly-kWh formula is
monotonically increasing in both the wattage and the factor. -/
theorem C7_yearly_kwh :
    (∀ a : QualitativeAnalysis,
      (perform_simplified_calculations a).estimated_yearly_kwh = 0 ↔
      (perform_simplified_calculations a).estimated_system_wattage = 0) ∧
    (∀ a : QualitativeAnalysis,
      0 < (perform_simplified_calculations a).estimated_system_wattage →
      (perform_simplified_calculations a).estimated_yearly_kwh =
        ((perform_simplified_calculations a).estimated_system_wattage : ℚ) * 1.4 *
          factorOf (strLower (a.sunlight_exposure.getD "N/A")) / 1000) ∧
    (∀ (w w' : ℤ) (f f' : ℚ), 0 ≤ w → w ≤ w' → 0 ≤ f → f ≤ f' →
      yearlyKwhOf w f ≤ yearlyKwhOf w' f') := by
  refine ⟨?_, ?_, yearlyKwhOf_mono⟩
  · intro a
    rw [perform_kwh]
    exact yearlyKwhOf_eq_zero_iff _ _ (wattage_nonneg a) (factorOf_pos _)
  · intro a h
    rw [perform_kwh]
    unfold yearlyKwhOf
    rw [if_pos h]

/-- C7 witness: the formula clause applied at a record resolving to a
positive wattage, and the monotonicity clause applied at concrete inputs,
discharging every hypothesis. -/
theorem C7_yearly_kwh_witness :
    (perform_simplified_calculations
      ⟨none, none, some "excellent", some "large", none⟩).estimated_yearly_kwh =
      ((perform_simplified_calculations
        ⟨none, none, some "excellent", some "large", none⟩).estimated_system_wattage : ℚ) *
        1.4 * factorOf (strLower ((⟨none, none, some "excellent", some "large",
          none⟩ : QualitativeAnalysis).sunlight_exposure.getD "N/A")) / 1000 ∧
    yearlyKwhOf 0 1 ≤ yearlyKwhOf 2000 1 :=
  ⟨C7_yearly_kwh.2.1 ⟨none, none, some "excellent", some "large", none⟩
      wattage_large_excellent_pos,
   C7_yearly_kwh.2.2 0 2000 1 1 (le_refl (0:ℤ)) (by decide) zero_le_one (le_refl (1:ℚ))⟩

/-- C8: for every input, the ROI field is the sentinel exactly when the
yearly savings are 0; otherwise it is the number `cost / savings`, which is
positive whenever the cost is positive. -/
theorem C8_roi_sentinel (a : QualitativeAnalysis) :
    ((perform_simplified_calculations a).estimated_roi_years = RoiValue.na ↔
      (perform_simplified_calculations a).estimated_yearly_savings = 0) ∧
    ((perform_simplified_calculations a).estimated_yearly_savings ≠ 0 →
      (perform_simplified_calculations a).estimated_roi_years =
        RoiValue.num ((perform_simplified_calculations a).estimated_system_cost /
          (perform_simplified_calculations a).estimated_yearly_savings)) ∧
    ((perform_simplified_calculations a).estimated_yearly_savings ≠ 0 →
      0 < (perform_simplified_calculations a).estimated_system_cost →
      0 < (perform_simplified_calculations a).estimated_system_cost /
        (perform_simplified_calculations a).estimated_yearly_savings) := by
  have hkwh : 0 ≤ (perform_simplified_calculations a).estimated_yearly_kwh := by
    rw [perform_kwh]
    exact yearlyKwhOf_nonneg _ _ (factorOf_pos _).le
  have hsnn : 0 ≤ (perform_simplified_calculations a).estimated_yearly_savings := by
    rw [perform_savings]
    exact savingsOf_nonneg _ hkwh
  refine ⟨?_, ?_, ?_⟩
  · rw [perform_roi]
    unfold roiOf
    split
    · rename_i h
      exact iff_of_false (by simp) (ne_of_gt h)
    · rename_i h
      exact iff_of_true rfl (le_antisymm (not_lt.mp h) hsnn)
  · intro hne
    rw [perform_roi]
    unfold roiOf
    rw [if_pos (lt_of_le_of_ne hsnn (Ne.symm hne))]
  · intro hne hc
    exact div_pos hc (lt_of_le_of_ne hsnn (Ne.symm hne))

/-- C8 witness: the quotient clause and positivity clause applied at a
record with nonzero savings and positive cost. -/
theorem C8_roi_sentinel_witness :
    (perform_simplified_calculations
      ⟨none, none, some "excellent", some "large", none⟩).estimated_roi_years =
      RoiValue.num ((perform_simplified_calculations
          ⟨none, none, some "excellent", some "large", none⟩).estimated_system_cost /
        (perform_simplified_calculations
          ⟨none, none, some "excellent", some "large", none⟩).estimated_yearly_savings) ∧
    0 < (perform_simplified_calculations
        ⟨none, none, some "excellent", some "large", none⟩).estimated_system_cost /
      (perform_simplified_calculations
        ⟨none, none, some "excellent", some "large", none⟩).estimated_yearly_savings :=
  ⟨(C8_roi_sentinel _).2.1 savings_large_excellent_ne,
   (C8_roi_sentinel _).2.2 savings_large_excellent_ne cost_large_excellent_pos⟩

/-- C9: two input records agreeing on the sunlight and qualitative-area
fields produce identical numeric estimates, whatever their roof-shape,
obstacle and overall-assessment fields are: the three informational fields
never influence the computation. -/
theorem C9_informational_fields_no_influence (a b : QualitativeAnalysis)
    (h1 : a.sunlight_exposure = b.sunlight_exposure)
    (h2 : a.usable_area_qualitative = b.usable_area_qualitative) :
    perform_simplified_calculations a = perform_simplified_calculations b := by
  unfold perform_simplified_calculations
  rw [h1, h2]

/-- C9 witness: the theorem applied to two records that differ in every
informational field, with the two agreement hypotheses discharged by
reflexivity. -/
theorem C9_informational_fields_no_influence_witness :
    perform_simplified_calculations
      ⟨some "rectangular", some ["chimney", "vent"], some "excellent",
        some "large", some "a promising roof"⟩ =
    perform_simplified_calculations
      ⟨some "L-shaped", none, some "excellent", some "large", none⟩ :=
  C9_informational_fields_no_influence _ _ rfl rfl

/-- C10: when the external call yields text the JSON decoder rejects, the
client returns the error record carrying the parse-failure description and
the raw unparsed text; when the call itself fails, it returns the error
record carrying the failure description. It consumes exactly one call
outcome, so no retry occurs. -/
theorem C10_client_error_results :
    (∀ (jsonLoads : String → Except String QualitativeAnalysis) (text e : String),
      jsonLoads text = Except.error e →
      get_roof_analysis_from_ai (CallOutcome.ok text) jsonLoads =
        AIResult.errorParse ("JSON parsing error: " ++ e) text) ∧
    (∀ (jsonLoads : String → Except String QualitativeAnalysis) (d : String),
      get_roof_analysis_from_ai (CallOutcome.failure d) jsonLoads =
        AIResult.errorOther ("Error during AI analysis: " ++ d)) := by
  constructor
  · intro jl text e h
    simp only [get_roof_analysis_from_ai]
    rw [h]
  · intro jl d
    rfl

/-- C10 witness: the parse-failure clause applied to a concrete non-JSON
response text and a decoder rejecting it. -/
theorem C10_client_error_results_witness :
    get_roof_analysis_from_ai (CallOutcome.ok "not json")
        (fun _ => Except.error "Expecting value") =
      AIResult.errorParse ("JSON parsing error: " ++ "Expecting value") "not json" :=
  C10_client_error_results.1 (fun _ => Except.error "Expecting value")
    "not json" "Expecting value" rfl

end SolarRooftop
